import Mathlib

/-!
Verification of the kingofthetable foosball backend (Go).

The definitions below are a shallow embedding of the repository's game
engine: the growable ring-buffer waiting queue (`ringqueue.go`), the core
game/undo data model (`types.go`) and the per-game handler logic of
`handlers.go` (`postQueue`, `postGoal`, `postUndo`, `postRemovePlayer`,
`postStartNewGame`), stripped of HTTP transport, the registry lock and the
asynchronous persistence queue, none of which affect the per-game state
transitions studied here.  Go strings are Lean `String`s, Go slices are
Lean `List`s, Go `int` sizes/indices are `Nat` (all indices in the source
are non-negative), and handlers are pure functions returning the new
`GameState` together with an `Except`-style outcome, mirroring the fact
that a Go handler either mutates the state in place or returns an error
response.
-/

/-- Models Go `unicode.IsSpace` on the ASCII range used by player ids
(space, tab, newline, vertical tab, form feed, carriage return). -/
def goIsSpace (c : Char) : Bool :=
  c = ' ' || c = '\t' || c = '\n' || c = '\x0b' || c = '\x0c' || c = '\r'

/-- Models Go `strings.TrimSpace`: drop leading and trailing whitespace. -/
def trimSpace (s : String) : String :=
  ⟨((s.data.dropWhile goIsSpace).reverse.dropWhile goIsSpace).reverse⟩

/-- Models Go `strings.ToLower` on the ASCII range used by team tokens. -/
def lowerChar (c : Char) : Char :=
  if 'A' ≤ c && c ≤ 'Z' then Char.ofNat (c.toNat + 32) else c

/-- Models Go `strings.ToLower` applied to a whole string. -/
def toLowerGo (s : String) : String := ⟨s.data.map lowerChar⟩

/-- Source `ringqueue.go`: growable ring buffer FIFO queue for player IDs.
`data` is the backing slice, `head`/`tail`/`size` as in the source. -/
structure RingQueue where
  data : List String
  head : Nat
  tail : Nat
  size : Nat
deriving DecidableEq

/-- Source `ringqueue.go` `NewRingQueue`: capacity below 1 is clamped to 1; the
backing slice starts zero-filled (empty strings in Go). -/
def NewRingQueue (capacity : Nat) : RingQueue :=
  let c := if capacity < 1 then 1 else capacity
  { data := List.replicate c "", head := 0, tail := 0, size := 0 }

/-- Source `ringqueue.go` `Len`. -/
def RingQueue.Len (q : RingQueue) : Nat := q.size

/-- Source `ringqueue.go` `grow`: double the capacity (1 if it was 0), copy the
live elements in FIFO order to the front, reset head/tail. -/
def RingQueue.grow (q : RingQueue) : RingQueue :=
  let newCap := if q.data.length * 2 = 0 then 1 else q.data.length * 2
  { data := (List.range newCap).map
      (fun i => if i < q.size then q.data.getD ((q.head + i) % q.data.length) "" else ""),
    head := 0, tail := q.size, size := q.size }

/-- Source `ringqueue.go` `Enqueue`: grow when full, write at `tail`, advance
`tail` modulo the capacity. -/
def RingQueue.Enqueue (q : RingQueue) (v : String) : RingQueue :=
  let q := if q.size = q.data.length then q.grow else q
  { q with data := q.data.set q.tail v,
           tail := (q.tail + 1) % q.data.length,
           size := q.size + 1 }

/-- Source `ringqueue.go` `Dequeue`: returns `(value, ok)` plus the queue after
the call (the Go method mutates the receiver); zero values on empty. -/
def RingQueue.Dequeue (q : RingQueue) : String × Bool × RingQueue :=
  if q.size = 0 then ("", false, q)
  else
    (q.data.getD q.head "", true,
     { q with data := q.data.set q.head "",
              head := (q.head + 1) % q.data.length,
              size := q.size - 1 })

/-- Source `ringqueue.go` `Snapshot`: the live elements in FIFO order. -/
def RingQueue.Snapshot (q : RingQueue) : List String :=
  (List.range q.size).map (fun i => q.data.getD ((q.head + i) % q.data.length) "")

/-- Well-formedness maintained by every queue produced by the source:
non-empty backing slice, `size` within capacity, `head` in range and
`tail` the index one past the logical end. -/
def RingQueue.WF (q : RingQueue) : Prop :=
  0 < q.data.length ∧ q.size ≤ q.data.length ∧ q.head < q.data.length ∧
    q.tail = (q.head + q.size) % q.data.length

instance (q : RingQueue) : Decidable q.WF := by
  unfold RingQueue.WF; infer_instance

/-- Build a queue by enqueuing a list in order, as `applySnapshot` and
`postStartNewGame` do in the source. -/
def ofList (cap : Nat) (l : List String) : RingQueue :=
  l.foldl RingQueue.Enqueue (NewRingQueue cap)

/-- Source `types.go` `TeamState`. -/
structure TeamState where
  Forward : String
  Goalkeeper : String
deriving DecidableEq

/-- Source `types.go` `Score` (Go `int` counters). -/
structure Score where
  Red : Int
  Blue : Int
deriving DecidableEq

/-- Source `types.go` `GameSnapshot`: deep copy used for undo support. -/
structure GameSnapshot where
  Red : TeamState
  Blue : TeamState
  Waiting : List String
  Score : Score
  Started : Bool
deriving DecidableEq

/-- Source `types.go` `GameState`.  The six `Streak*` fields are read and written
by `postGoal` in `handlers.go`; their declaration in the struct is not among
the provided source files, so they are declared here per spec §3
(`StreakState`: winning team/pair plus the opponent pair recorded at streak
start, and the awarded flag), with Go zero values `""`/`false`. -/
structure GameState where
  Red : TeamState
  Blue : TeamState
  Waiting : RingQueue
  Score : Score
  Started : Bool
  History : List GameSnapshot
  StreakTeam : String
  StreakForward : String
  StreakGoalkeeper : String
  StreakOppStartF : String
  StreakOppStartG : String
  StreakAwarded : Bool
deriving DecidableEq

/-- Source `types.go` `rotationSummary`. -/
structure rotationSummary where
  Benched : String
  MovedToGoalkeeper : String
  NewForward : String
deriving DecidableEq

/-- Source `handlers.go` `celebrationResponse` (field `Type` is spelled `kind`
here because `Type` is reserved in Lean). -/
structure celebrationResponse where
  kind : String
  Team : String
  Players : List String
deriving DecidableEq

/-- The error outcomes of the handlers, one constructor per distinct Go
error response: `invalidTeam` = "team must be 'red' or 'blue'" (400),
`notStarted` = "game not started" (409), `queueEmpty` = "waiting queue
empty; cannot rotate losing team" (409), `duplicateId` = "player_id already
exists in game" / "duplicate player_id" (409), `playerRequired` =
"player_id is required" (400), `notFound` = "player not found in game"
(404), `noHistory` = "no actions to undo" (409), `emptySlot` = "empty
player_id in active slots" (400), `emptyWaitingId` = "empty player_id in
waiting queue" (400). -/
inductive ApiError where
  | invalidTeam
  | notStarted
  | queueEmpty
  | duplicateId
  | playerRequired
  | notFound
  | noHistory
  | emptySlot
  | emptyWaitingId
deriving DecidableEq

/-- Source `types.go` `snapshotGame`. -/
def snapshotGame (gs : GameState) : GameSnapshot :=
  { Red := gs.Red
    Blue := gs.Blue
    Waiting := gs.Waiting.Snapshot
    Score := gs.Score
    Started := gs.Started }

/-- Source `types.go` `applySnapshot`: restores `Red`, `Blue`, `Score`, `Started`
and rebuilds the waiting queue from the saved contents with capacity
`max 8 len`; it touches neither `History` nor the `Streak*` fields. -/
def applySnapshot (gs : GameState) (snap : GameSnapshot) : GameState :=
  { gs with
    Red := snap.Red
    Blue := snap.Blue
    Waiting := ofList (max 8 snap.Waiting.length) snap.Waiting
    Score := snap.Score
    Started := snap.Started }

/-- Source `store.go` `playerExistsInGame`. -/
def playerExistsInGame (gs : GameState) (id : String) : Bool :=
  if gs.Red.Forward = id ∨ gs.Red.Goalkeeper = id ∨
      gs.Blue.Forward = id ∨ gs.Blue.Goalkeeper = id then true
  else gs.Waiting.Snapshot.any (fun v => v == id)

/-- Source `handlers.go` `samePair`: unordered pair equality, refusing empty ids. -/
def samePair (a1 a2 b1 b2 : String) : Bool :=
  if a1 = "" ∨ a2 = "" ∨ b1 = "" ∨ b2 = "" then false
  else decide ((a1 = b1 ∧ a2 = b2) ∨ (a1 = b2 ∧ a2 = b1))

/-- Comparison definition taken from the SPEC's words for C7 ("they match
as an unordered pair"), with no emptiness guard; to be compared with the
source's `samePair`. -/
def specUnorderedPairEq (a1 a2 b1 b2 : String) : Bool :=
  decide ((a1 = b1 ∧ a2 = b2) ∨ (a1 = b2 ∧ a2 = b1))

/-- Models `gs.History = append(gs.History, snapshotGame(gs))`, the
snapshot-before-mutation step shared by the mutating handlers. -/
def pushHist (gs : GameState) : GameState :=
  { gs with History := gs.History ++ [snapshotGame gs] }

/-- Source `handlers.go` `postGoal`, red branch: start/reset the streak if the
winning team or pair changed, recording the pre-rotation opposing pair. -/
def streakUpdRed (gs : GameState) : GameState :=
  if gs.StreakTeam ≠ "red" ∨ gs.StreakForward ≠ gs.Red.Forward ∨
      gs.StreakGoalkeeper ≠ gs.Red.Goalkeeper then
    { gs with
      StreakTeam := "red"
      StreakForward := gs.Red.Forward
      StreakGoalkeeper := gs.Red.Goalkeeper
      StreakOppStartF := gs.Blue.Forward
      StreakOppStartG := gs.Blue.Goalkeeper
      StreakAwarded := false }
  else gs

/-- Source `handlers.go` `postGoal`, blue branch streak update. -/
def streakUpdBlue (gs : GameState) : GameState :=
  if gs.StreakTeam ≠ "blue" ∨ gs.StreakForward ≠ gs.Blue.Forward ∨
      gs.StreakGoalkeeper ≠ gs.Blue.Goalkeeper then
    { gs with
      StreakTeam := "blue"
      StreakForward := gs.Blue.Forward
      StreakGoalkeeper := gs.Blue.Goalkeeper
      StreakOppStartF := gs.Red.Forward
      StreakOppStartG := gs.Red.Goalkeeper
      StreakAwarded := false }
  else gs

/-- Source `handlers.go` `rotateLoser`: bench the losing goalkeeper to the queue
tail, promote the losing forward to goalkeeper, draw the new forward from
the queue head.  Returns the updated waiting queue and loser slot (the Go
function mutates them through pointers) plus the summary. -/
def rotateLoser (w : RingQueue) (loser : TeamState) :
    Except ApiError (RingQueue × TeamState × rotationSummary) :=
  if w.Len = 0 then .error .queueEmpty
  else
    let benched := loser.Goalkeeper
    let w1 := w.Enqueue benched
    let moved := loser.Forward
    let d := w1.Dequeue
    .ok (d.2.2, { Forward := d.1, Goalkeeper := moved },
      { Benched := benched
        MovedToGoalkeeper := moved
        NewForward := d.1 })

/-- Source `handlers.go` `postGoal` lines 304-322: full-rotation check against the
streak's opponent baseline, run on the post-rotation state. -/
def checkCelebration (gs : GameState) : Option celebrationResponse :=
  if gs.StreakOppStartF ≠ "" ∧ gs.StreakOppStartG ≠ "" then
    let opp := if gs.StreakTeam = "red" then gs.Blue else gs.Red
    if samePair gs.StreakOppStartF gs.StreakOppStartG opp.Forward opp.Goalkeeper then
      some
        { kind := "full_rotation"
          Team := gs.StreakTeam
          Players := if gs.StreakTeam = "red" then [gs.Red.Forward, gs.Red.Goalkeeper]
            else [gs.Blue.Forward, gs.Blue.Goalkeeper] }
    else none
  else none

/-- Source `handlers.go` `postQueue`, after JSON decode and game lookup: trim the
id, reject empty or duplicate ids, otherwise snapshot for undo and enqueue. -/
def postQueueCore (gs : GameState) (rawId : String) : GameState × Except ApiError Unit :=
  let id := trimSpace rawId
  if id = "" then (gs, .error .playerRequired)
  else if playerExistsInGame gs id then (gs, .error .duplicateId)
  else ({ pushHist gs with Waiting := gs.Waiting.Enqueue id }, .ok ())

/-- Source `handlers.go` `postGoal`, after JSON decode and game lookup: normalize
the team token, validate, snapshot for undo, update the streak, rotate the
losing team and run the full-rotation check.  The in-memory `Score` field
is never incremented by this handler. -/
def postGoalCore (gs : GameState) (rawTeam : String) :
    GameState × Except ApiError (rotationSummary × Option celebrationResponse) :=
  let team := toLowerGo (trimSpace rawTeam)
  if team ≠ "red" ∧ team ≠ "blue" then (gs, .error .invalidTeam)
  else if team = "red" then
    if gs.Started = false then (gs, .error .notStarted)
    else if gs.Waiting.Len = 0 then (gs, .error .queueEmpty)
    else
      let gs2 := streakUpdRed (pushHist gs)
      match rotateLoser gs2.Waiting gs2.Blue with
      | .error e => (gs2, .error e)
      | .ok (w, blue, summary) =>
        let gs3 := { gs2 with Waiting := w, Blue := blue }
        (gs3, .ok (summary, checkCelebration gs3))
  else
    if gs.Started = false then (gs, .error .notStarted)
    else if gs.Waiting.Len = 0 then (gs, .error .queueEmpty)
    else
      let gs2 := streakUpdBlue (pushHist gs)
      match rotateLoser gs2.Waiting gs2.Red with
      | .error e => (gs2, .error e)
      | .ok (w, red, summary) =>
        let gs3 := { gs2 with Waiting := w, Red := red }
        (gs3, .ok (summary, checkCelebration gs3))

/-- Source `handlers.go` `postUndo`, after game lookup: error when the history is
empty, otherwise pop the last snapshot and apply it. -/
def postUndoCore (gs : GameState) : GameState × Except ApiError Unit :=
  match gs.History.getLast? with
  | none => (gs, .error .noHistory)
  | some last => (applySnapshot { gs with History := gs.History.dropLast } last, .ok ())

/-- Modelled from the spec: the implementation of `RingQueue.RemoveValue`
is not among the provided source files (only its caller `postRemovePlayer`
is).  Spec §4.1: "scans logical order for the first occurrence of `id`,
removes it while preserving the relative order of all other elements, and
signals whether anything was removed", compacting the buffer rather than
leaving a hole. -/
def RingQueue.RemoveValue (q : RingQueue) (id : String) : RingQueue × Bool :=
  if id ∈ q.Snapshot then (ofList q.data.length (q.Snapshot.erase id), true)
  else (q, false)

/-- Source `handlers.go` `postRemovePlayer`, after JSON decode and game lookup:
trim the id, reject empty; otherwise push an undo snapshot (the source does
this before searching), try the waiting queue, then the four slots in fixed
order, and report `notFound` when nothing matched. -/
def postRemovePlayerCore (gs : GameState) (rawId : String) : GameState × Except ApiError Unit :=
  let id := trimSpace rawId
  if id = "" then (gs, .error .playerRequired)
  else
    let gs1 := pushHist gs
    let rv := gs1.Waiting.RemoveValue id
    let gs2 := { gs1 with Waiting := rv.1 }
    let r1 := if rv.2 then (gs2, true)
      else if gs2.Red.Forward = id then ({ gs2 with Red := { gs2.Red with Forward := "" } }, true)
      else (gs2, false)
    let r2 := if r1.2 then r1
      else if r1.1.Red.Goalkeeper = id then
        ({ r1.1 with Red := { r1.1.Red with Goalkeeper := "" } }, true)
      else r1
    let r3 := if r2.2 then r2
      else if r2.1.Blue.Forward = id then
        ({ r2.1 with Blue := { r2.1.Blue with Forward := "" } }, true)
      else r2
    let r4 := if r3.2 then r3
      else if r3.1.Blue.Goalkeeper = id then
        ({ r3.1 with Blue := { r3.1.Blue with Goalkeeper := "" } }, true)
      else r3
    if r4.2 then (r4.1, .ok ()) else (r4.1, .error .notFound)

/-- Source `store.go` `containsEmptyIDs`. -/
def containsEmptyIDs (ids : List String) : Bool :=
  ids.any (fun id => trimSpace id = "")

/-- Source `store.go` `hasDuplicate` loop, with the seen-set as a list. -/
def hasDuplicateGo : List String → List String → String × Bool
  | [], _ => ("", false)
  | id :: rest, seen =>
    if id = "" then hasDuplicateGo rest seen
    else if id ∈ seen then (id, true)
    else hasDuplicateGo rest (id :: seen)

/-- Source `store.go` `hasDuplicate`. -/
def hasDuplicate (ids : List String) : String × Bool := hasDuplicateGo ids []

/-- Source `store.go` `collectAllIDs`. -/
def collectAllIDs (gs : GameState) : List String :=
  [gs.Red.Forward, gs.Red.Goalkeeper, gs.Blue.Forward, gs.Blue.Goalkeeper] ++
    gs.Waiting.Snapshot

/-- Source `handlers.go` `postStartNewGame`, after JSON decode and without ID
generation: validate slots and waiting ids, build the fresh `GameState`
(capacity `max 8 len`, `Started = true`, empty history, zero-valued score
and streak fields), reject duplicate ids. -/
def postStartNewGameCore (red blue : TeamState) (waiting : List String) :
    Except ApiError GameState :=
  if containsEmptyIDs [red.Forward, red.Goalkeeper, blue.Forward, blue.Goalkeeper] then
    .error .emptySlot
  else if waiting.any (fun id => trimSpace id = "") then .error .emptyWaitingId
  else
    let gs : GameState :=
      { Red := red
        Blue := blue
        Waiting := ofList (max 8 waiting.length) waiting
        Score := { Red := 0, Blue := 0 }
        Started := true
        History := []
        StreakTeam := ""
        StreakForward := ""
        StreakGoalkeeper := ""
        StreakOppStartF := ""
        StreakOppStartG := ""
        StreakAwarded := false }
    if (hasDuplicate (collectAllIDs gs)).2 then .error .duplicateId
    else .ok gs

/-- The fields of a `GameState` that the undo snapshot covers, with the
waiting queue abstracted to its FIFO contents. -/
def coreView (gs : GameState) :
    TeamState × TeamState × List String × Score × Bool × List GameSnapshot :=
  (gs.Red, gs.Blue, gs.Waiting.Snapshot, gs.Score, gs.Started, gs.History)

/-- The streak-tracking fields of a `GameState`. -/
def streakView (gs : GameState) : String × String × String × String × String × Bool :=
  (gs.StreakTeam, gs.StreakForward, gs.StreakGoalkeeper,
    gs.StreakOppStartF, gs.StreakOppStartG, gs.StreakAwarded)

/-- A single queue operation, for stating the FIFO property of C4. -/
inductive QOp where
  | enq (v : String)
  | deq
deriving DecidableEq

/-- Run a sequence of operations on a `RingQueue`. -/
def runQ : List QOp → RingQueue → RingQueue
  | [], q => q
  | .enq v :: ops, q => runQ ops (q.Enqueue v)
  | .deq :: ops, q => runQ ops (q.Dequeue).2.2

/-- The FIFO order implied by a sequence of operations on an abstract
list: enqueue appends at the tail, dequeue drops the head. -/
def modelQ : List QOp → List String → List String
  | [], l => l
  | .enq v :: ops, l => modelQ ops (l ++ [v])
  | .deq :: ops, l => modelQ ops l.tail

/-- The scoring team's slot for a normalized team token. -/
def scorerOf (gs : GameState) (t : String) : TeamState :=
  if t = "red" then gs.Red else gs.Blue

/-- The losing (non-scoring) team's slot for a normalized team token. -/
def loserOf (gs : GameState) (t : String) : TeamState :=
  if t = "red" then gs.Blue else gs.Red

/-- The condition under which `postGoal` starts/resets the streak: the
tracked team or either tracked role differs, field-for-field, from the
scoring team's current slot. -/
def streakResetCond (gs : GameState) (t : String) : Prop :=
  gs.StreakTeam ≠ t ∨ gs.StreakForward ≠ (scorerOf gs t).Forward ∨
    gs.StreakGoalkeeper ≠ (scorerOf gs t).Goalkeeper

instance (gs : GameState) (t : String) : Decidable (streakResetCond gs t) := by
  unfold streakResetCond; infer_instance

/-- The streak's opponent baseline as it stands after the streak update of
one `postGoal` call: re-recorded from the pre-rotation losing pair when
the streak resets, otherwise carried over unchanged. -/
def baselineAfter (gs : GameState) (t : String) : String × String :=
  if streakResetCond gs t then ((loserOf gs t).Forward, (loserOf gs t).Goalkeeper)
  else (gs.StreakOppStartF, gs.StreakOppStartG)

/-- The worked scenario of spec §8: red `[p1,p2]`, blue `[p3,p4]`,
waiting `[p5,p6,p7]` (queue capacity `max 8 3`), exactly the state
`postStartNewGame` builds for that request. -/
def G0 : GameState :=
  { Red := ⟨"p1", "p2"⟩
    Blue := ⟨"p3", "p4"⟩
    Waiting := ofList 8 ["p5", "p6", "p7"]
    Score := ⟨0, 0⟩
    Started := true
    History := []
    StreakTeam := ""
    StreakForward := ""
    StreakGoalkeeper := ""
    StreakOppStartF := ""
    StreakOppStartG := ""
    StreakAwarded := false }

/-- A started game with an empty waiting queue. -/
def G5 : GameState := { G0 with Waiting := ofList 8 [] }

/-- Like `G0` but with a single waiting player and `p5` duplicated into
the blue goalkeeper slot (defensive first-match scenario of C6). -/
def G6b : GameState := { G0 with Blue := ⟨"p3", "p5"⟩ }

/-- Start state for the C7 counterexample: one waiting player. -/
def B0 : GameState := { G0 with Waiting := ofList 8 ["p5"] }

/-- State `B0` after removing `p4` (empties the blue goalkeeper slot). -/
def B1 : GameState := (postRemovePlayerCore B0 "p4").1

/-- State `B1` after a red goal (streak starts, baseline records `(p3, "")`). -/
def B2 : GameState := (postGoalCore B1 "red").1

/-- State `B2` after another red goal. -/
def B3 : GameState := (postGoalCore B2 "red").1

/-- State `B3` after a third red goal: blue has rotated back to `(p3, "")`,
the exact composition recorded at streak start. -/
def B4 : GameState := (postGoalCore B3 "red").1

/-- Witness state for C7: red `[p1,p2]` two goals into a streak whose
baseline is `(p3,p4)`, with blue now `[p4,p5]` and `p3` waiting, so the
next red goal rotates blue back to the baseline pair. -/
def W7 : GameState :=
  { Red := ⟨"p1", "p2"⟩
    Blue := ⟨"p4", "p5"⟩
    Waiting := ofList 8 ["p3"]
    Score := ⟨0, 0⟩
    Started := true
    History := []
    StreakTeam := "red"
    StreakForward := "p1"
    StreakGoalkeeper := "p2"
    StreakOppStartF := "p3"
    StreakOppStartG := "p4"
    StreakAwarded := false }

/-- Witness state for C9: the tracked red streak pair is `p1/p2` with the
roles swapped relative to the current red slots. -/
def GW9 : GameState :=
  { Red := ⟨"p1", "p2"⟩
    Blue := ⟨"p3", "p4"⟩
    Waiting := ofList 8 ["p5"]
    Score := ⟨0, 0⟩
    Started := true
    History := []
    StreakTeam := "red"
    StreakForward := "p2"
    StreakGoalkeeper := "p1"
    StreakOppStartF := "x"
    StreakOppStartG := "y"
    StreakAwarded := false }

lemma getD_set_self (l : List String) : ∀ (i : Nat) (v : String), i < l.length →
    (l.set i v).getD i "" = v := by
  induction l with
  | nil => intro i v h; simp at h
  | cons a l ih =>
    intro i v h
    cases i with
    | zero => rfl
    | succ i => exact ih i v (by simpa using h)

lemma getD_set_ne (l : List String) : ∀ (i j : Nat) (v : String), i ≠ j →
    (l.set i v).getD j "" = l.getD j "" := by
  induction l with
  | nil => intro i j v _; simp
  | cons a l ih =>
    intro i j v h
    cases i with
    | zero =>
      cases j with
      | zero => exact absurd rfl h
      | succ j => rfl
    | succ i =>
      cases j with
      | zero => rfl
      | succ j => exact ih i j v (fun hh => h (by rw [hh]))

lemma getD_map_range (f : Nat → String) (n i : Nat) (h : i < n) :
    ((List.range n).map f).getD i "" = f i := by
  have hl : i < ((List.range n).map f).length := by simpa using h
  rw [List.getD_eq_getElem _ _ hl]
  simp

lemma mod_add_ne (L a : Nat) (_h0 : 0 < L) {i j : Nat} (hij : i < j) (hj : j - i < L) :
    (a + i) % L ≠ (a + j) % L := by
  intro h
  have hdvd : L ∣ (a + j) - (a + i) := (Nat.modEq_iff_dvd' (by omega)).1 h
  have heq : (a + j) - (a + i) = j - i := by omega
  rw [heq] at hdvd
  have := Nat.le_of_dvd (by omega) hdvd
  omega

@[simp] lemma RingQueue.length_Snapshot (q : RingQueue) : q.Snapshot.length = q.size := by
  simp [RingQueue.Snapshot]

lemma WF_new (c : Nat) : (NewRingQueue c).WF := by
  have h : 0 < (if c < 1 then 1 else c) := by split <;> omega
  unfold RingQueue.WF NewRingQueue
  simp only [List.length_replicate]
  exact ⟨h, Nat.zero_le _, h, by simp⟩

lemma Snapshot_new (c : Nat) : (NewRingQueue c).Snapshot = [] := rfl

lemma grow_spec (q : RingQueue) (hwf : q.WF) :
    q.grow.WF ∧ q.grow.Snapshot = q.Snapshot ∧ q.grow.size = q.size ∧
      q.grow.size < q.grow.data.length := by
  obtain ⟨h0, hsz, hh, ht⟩ := hwf
  have hne : ¬ (q.data.length * 2 = 0) := by omega
  have hdata : q.grow.data = (List.range (q.data.length * 2)).map
      (fun i => if i < q.size then q.data.getD ((q.head + i) % q.data.length) "" else "") := by
    simp only [RingQueue.grow, if_neg hne]
  have hL : q.grow.data.length = q.data.length * 2 := by
    rw [hdata]; simp
  have hhead : q.grow.head = 0 := rfl
  have htail : q.grow.tail = q.size := rfl
  have hsize : q.grow.size = q.size := rfl
  refine ⟨⟨by omega, by omega, by omega, ?_⟩, ?_, hsize, by omega⟩
  · rw [htail, hhead, hsize, hL, Nat.zero_add, Nat.mod_eq_of_lt (by omega)]
  · unfold RingQueue.Snapshot
    rw [hsize, hhead, hL, hdata]
    apply List.map_congr_left
    intro i hi
    have hi' : i < q.size := List.mem_range.1 hi
    rw [Nat.zero_add, Nat.mod_eq_of_lt (by omega), getD_map_range _ _ _ (by omega),
      if_pos hi']

lemma enqueue_noGrow_spec (q : RingQueue) (v : String) (h0 : 0 < q.data.length)
    (hlt : q.size < q.data.length) (hh : q.head < q.data.length)
    (ht : q.tail = (q.head + q.size) % q.data.length) :
    RingQueue.WF ⟨q.data.set q.tail v, q.head, (q.tail + 1) % q.data.length, q.size + 1⟩ ∧
      RingQueue.Snapshot ⟨q.data.set q.tail v, q.head, (q.tail + 1) % q.data.length, q.size + 1⟩ =
        q.Snapshot ++ [v] := by
  have htlt : q.tail < q.data.length := by
    rw [ht]; exact Nat.mod_lt _ h0
  constructor
  · refine ⟨by simp [List.length_set]; omega, by simp [List.length_set]; omega,
      by simp [List.length_set]; omega, ?_⟩
    show (q.tail + 1) % q.data.length = (q.head + (q.size + 1)) % (q.data.set q.tail v).length
    rw [List.length_set, ht, Nat.mod_add_mod]
    ring_nf
  · show (List.range (q.size + 1)).map
        (fun i => (q.data.set q.tail v).getD ((q.head + i) % (q.data.set q.tail v).length) "") =
      q.Snapshot ++ [v]
    rw [List.range_succ, List.map_append]
    congr 1
    · apply List.map_congr_left
      intro i hi
      have hi' : i < q.size := List.mem_range.1 hi
      rw [List.length_set]
      exact getD_set_ne q.data q.tail ((q.head + i) % q.data.length) v
        (by rw [ht]; exact (mod_add_ne q.data.length q.head h0 hi' (by omega)).symm)
    · simp only [List.map_cons, List.map_nil, List.length_set]
      rw [show (q.head + q.size) % q.data.length = q.tail from ht.symm]
      rw [getD_set_self q.data q.tail v htlt]

lemma RingQueue.enqueue_spec (q : RingQueue) (v : String) (hwf : q.WF) :
    (q.Enqueue v).WF ∧ (q.Enqueue v).Snapshot = q.Snapshot ++ [v] := by
  by_cases hfull : q.size = q.data.length
  · obtain ⟨⟨g0, gsz, ghh, ght⟩, gsnap, gsize, glt⟩ := grow_spec q hwf
    have hkey := enqueue_noGrow_spec q.grow v g0 glt ghh ght
    have hEnq : q.Enqueue v =
        ⟨q.grow.data.set q.grow.tail v, q.grow.head,
          (q.grow.tail + 1) % q.grow.data.length, q.grow.size + 1⟩ := by
      simp only [RingQueue.Enqueue, if_pos hfull]
    rw [hEnq]
    exact ⟨hkey.1, by rw [hkey.2, gsnap]⟩
  · obtain ⟨h0, hsz, hh, ht⟩ := hwf
    have hEnq : q.Enqueue v =
        ⟨q.data.set q.tail v, q.head, (q.tail + 1) % q.data.length, q.size + 1⟩ := by
      simp only [RingQueue.Enqueue, if_neg hfull]
    rw [hEnq]
    exact enqueue_noGrow_spec q v h0 (by omega) hh ht

lemma RingQueue.dequeue_spec (q : RingQueue) (hwf : q.WF) (hne : q.size ≠ 0) :
    (q.Dequeue).1 = q.Snapshot.headD "" ∧ (q.Dequeue).2.1 = true ∧
      (q.Dequeue).2.2.WF ∧ (q.Dequeue).2.2.Snapshot = q.Snapshot.tail := by
  obtain ⟨h0, hsz, hh, ht⟩ := hwf
  obtain ⟨n, hn⟩ : ∃ n, q.size = n + 1 := ⟨q.size - 1, by omega⟩
  have hsnap : q.Snapshot =
      q.data.getD q.head "" ::
        (List.range n).map (fun i => q.data.getD ((q.head + (i + 1)) % q.data.length) "") := by
    unfold RingQueue.Snapshot
    rw [hn, List.range_succ_eq_map, List.map_cons, List.map_map]
    simp only [Function.comp, Nat.add_zero, Nat.mod_eq_of_lt hh]
    rfl
  have hDeq : q.Dequeue = (q.data.getD q.head "", true,
      ⟨q.data.set q.head "", (q.head + 1) % q.data.length, q.tail, q.size - 1⟩) := by
    simp only [RingQueue.Dequeue, if_neg hne]
  rw [hDeq, hsnap]
  refine ⟨rfl, rfl, ⟨by simp [List.length_set]; omega, by simp [List.length_set]; omega,
    by simp [List.length_set]; exact Nat.mod_lt _ h0, ?_⟩, ?_⟩
  · show q.tail = ((q.head + 1) % q.data.length + (q.size - 1)) % (q.data.set q.head "").length
    rw [List.length_set, Nat.mod_add_mod, ht]
    congr 1
    omega
  · show (List.range (q.size - 1)).map
        (fun i => (q.data.set q.head "").getD
          (((q.head + 1) % q.data.length + i) % (q.data.set q.head "").length) "") = _
    simp only [List.tail_cons, List.length_set]
    rw [show q.size - 1 = n by omega]
    apply List.map_congr_left
    intro i hi
    have hi' : i < n := List.mem_range.1 hi
    rw [Nat.mod_add_mod]
    have hidx : (q.head + 1 + i) % q.data.length = (q.head + (i + 1)) % q.data.length := by
      congr 1; omega
    rw [hidx]
    apply getD_set_ne
    have := mod_add_ne q.data.length q.head h0 (i := 0) (j := i + 1) (by omega) (by omega)
    simpa [Nat.mod_eq_of_lt hh] using this

lemma RingQueue.dequeue_empty (q : RingQueue) (h : q.size = 0) :
    q.Dequeue = ("", false, q) := by
  simp only [RingQueue.Dequeue, if_pos h]

lemma RingQueue.dequeue_fst (q : RingQueue) (hwf : q.WF) :
    (q.Dequeue).1 = q.Snapshot.headD "" := by
  by_cases h : q.size = 0
  · rw [RingQueue.dequeue_empty q h]
    have : q.Snapshot = [] := by
      unfold RingQueue.Snapshot; rw [h]; rfl
    rw [this]; rfl
  · exact (RingQueue.dequeue_spec q hwf h).1

lemma ofList_spec (cap : Nat) (l : List String) :
    (ofList cap l).WF ∧ (ofList cap l).Snapshot = l := by
  suffices h : ∀ (l : List String) (q : RingQueue), q.WF →
      (l.foldl RingQueue.Enqueue q).WF ∧
        (l.foldl RingQueue.Enqueue q).Snapshot = q.Snapshot ++ l by
    have := h l (NewRingQueue cap) (WF_new cap)
    rw [Snapshot_new] at this
    simpa [ofList] using this
  intro l
  induction l with
  | nil => intro q hq; exact ⟨hq, by simp⟩
  | cons a l ih =>
    intro q hq
    obtain ⟨h1, h2⟩ := RingQueue.enqueue_spec q a hq
    obtain ⟨h3, h4⟩ := ih (q.Enqueue a) h1
    refine ⟨h3, ?_⟩
    show (List.foldl RingQueue.Enqueue (q.Enqueue a) l).Snapshot = q.Snapshot ++ a :: l
    rw [h4, h2]
    simp

@[simp] lemma Len_eq_size (q : RingQueue) : q.Len = q.size := rfl

@[simp] lemma Snapshot_ofList (cap : Nat) (l : List String) : (ofList cap l).Snapshot = l :=
  (ofList_spec cap l).2

lemma WF_ofList (cap : Nat) (l : List String) : (ofList cap l).WF :=
  (ofList_spec cap l).1

lemma headD_append_ne_nil (s : List String) (a : String) (h : s ≠ []) :
    (s ++ [a]).headD "" = s.headD "" := by
  cases s with
  | nil => exact absurd rfl h
  | cons x xs => rfl

lemma tail_append_ne_nil (s : List String) (a : String) (h : s ≠ []) :
    (s ++ [a]).tail = s.tail ++ [a] := by
  cases s with
  | nil => exact absurd rfl h
  | cons x xs => rfl

lemma Snapshot_ne_nil (q : RingQueue) (hne : q.Len ≠ 0) : q.Snapshot ≠ [] := by
  intro h
  apply hne
  have := congrArg List.length h
  simpa using this

/-- The effect of `rotateLoser`'s enqueue-then-dequeue on the waiting
queue: the returned value is the old queue head, and the new queue holds
the old tail followed by the benched goalkeeper. -/
lemma rotate_queue_spec (w : RingQueue) (gk : String) (hwf : w.WF) (hne : w.Len ≠ 0) :
    ((w.Enqueue gk).Dequeue).1 = w.Snapshot.headD "" ∧
      ((w.Enqueue gk).Dequeue).2.2.Snapshot = w.Snapshot.tail ++ [gk] ∧
      ((w.Enqueue gk).Dequeue).2.2.WF := by
  obtain ⟨w1wf, w1snap⟩ := RingQueue.enqueue_spec w gk hwf
  have hsne : w.Snapshot ≠ [] := Snapshot_ne_nil w hne
  have hw1 : (w.Enqueue gk).size ≠ 0 := by
    have h1 := (w.Enqueue gk).length_Snapshot
    rw [w1snap] at h1
    simp at h1
    omega
  obtain ⟨hv, _, hwf', hsnap'⟩ := RingQueue.dequeue_spec (w.Enqueue gk) w1wf hw1
  refine ⟨?_, ?_, hwf'⟩
  · rw [hv, w1snap, headD_append_ne_nil _ _ hsne]
  · rw [hsnap', w1snap, tail_append_ne_nil _ _ hsne]

@[simp] lemma pushHist_Red (gs : GameState) : (pushHist gs).Red = gs.Red := rfl
@[simp] lemma pushHist_Blue (gs : GameState) : (pushHist gs).Blue = gs.Blue := rfl
@[simp] lemma pushHist_Waiting (gs : GameState) : (pushHist gs).Waiting = gs.Waiting := rfl
@[simp] lemma pushHist_Score (gs : GameState) : (pushHist gs).Score = gs.Score := rfl
@[simp] lemma pushHist_Started (gs : GameState) : (pushHist gs).Started = gs.Started := rfl
@[simp] lemma pushHist_History (gs : GameState) :
    (pushHist gs).History = gs.History ++ [snapshotGame gs] := rfl

@[simp] lemma streakUpdRed_Red (gs : GameState) : (streakUpdRed gs).Red = gs.Red := by
  unfold streakUpdRed; split <;> rfl
@[simp] lemma streakUpdRed_Blue (gs : GameState) : (streakUpdRed gs).Blue = gs.Blue := by
  unfold streakUpdRed; split <;> rfl
@[simp] lemma streakUpdRed_Waiting (gs : GameState) : (streakUpdRed gs).Waiting = gs.Waiting := by
  unfold streakUpdRed; split <;> rfl
@[simp] lemma streakUpdRed_Score (gs : GameState) : (streakUpdRed gs).Score = gs.Score := by
  unfold streakUpdRed; split <;> rfl
@[simp] lemma streakUpdRed_Started (gs : GameState) : (streakUpdRed gs).Started = gs.Started := by
  unfold streakUpdRed; split <;> rfl
@[simp] lemma streakUpdRed_History (gs : GameState) : (streakUpdRed gs).History = gs.History := by
  unfold streakUpdRed; split <;> rfl

@[simp] lemma streakUpdBlue_Red (gs : GameState) : (streakUpdBlue gs).Red = gs.Red := by
  unfold streakUpdBlue; split <;> rfl
@[simp] lemma streakUpdBlue_Blue (gs : GameState) : (streakUpdBlue gs).Blue = gs.Blue := by
  unfold streakUpdBlue; split <;> rfl
@[simp] lemma streakUpdBlue_Waiting (gs : GameState) : (streakUpdBlue gs).Waiting = gs.Waiting := by
  unfold streakUpdBlue; split <;> rfl
@[simp] lemma streakUpdBlue_Score (gs : GameState) : (streakUpdBlue gs).Score = gs.Score := by
  unfold streakUpdBlue; split <;> rfl
@[simp] lemma streakUpdBlue_Started (gs : GameState) : (streakUpdBlue gs).Started = gs.Started := by
  unfold streakUpdBlue; split <;> rfl
@[simp] lemma streakUpdBlue_History (gs : GameState) : (streakUpdBlue gs).History = gs.History := by
  unfold streakUpdBlue; split <;> rfl

lemma streakUpdRed_team (gs : GameState) : (streakUpdRed gs).StreakTeam = "red" := by
  unfold streakUpdRed
  split
  · rfl
  · next h =>
    push_neg at h
    exact h.1

lemma streakUpdBlue_team (gs : GameState) : (streakUpdBlue gs).StreakTeam = "blue" := by
  unfold streakUpdBlue
  split
  · rfl
  · next h =>
    push_neg at h
    exact h.1

lemma rotateLoser_ok (w : RingQueue) (loser : TeamState) (h : w.Len ≠ 0) :
    rotateLoser w loser =
      .ok (((w.Enqueue loser.Goalkeeper).Dequeue).2.2,
        ⟨((w.Enqueue loser.Goalkeeper).Dequeue).1, loser.Forward⟩,
        ⟨loser.Goalkeeper, loser.Forward, ((w.Enqueue loser.Goalkeeper).Dequeue).1⟩) := by
  unfold rotateLoser
  rw [if_neg h]

/-- Shape of a successful red goal: undo entry pushed, streak updated, blue
rotated through the waiting queue, celebration check on the result. -/
lemma postGoalCore_red (gs : GameState) (rawTeam : String)
    (ht : toLowerGo (trimSpace rawTeam) = "red") (hs : gs.Started = true)
    (hne : gs.Waiting.Len ≠ 0) :
    postGoalCore gs rawTeam =
      ({ streakUpdRed (pushHist gs) with
          Waiting := ((gs.Waiting.Enqueue gs.Blue.Goalkeeper).Dequeue).2.2
          Blue := ⟨((gs.Waiting.Enqueue gs.Blue.Goalkeeper).Dequeue).1, gs.Blue.Forward⟩ },
        .ok (⟨gs.Blue.Goalkeeper, gs.Blue.Forward,
            ((gs.Waiting.Enqueue gs.Blue.Goalkeeper).Dequeue).1⟩,
          checkCelebration { streakUpdRed (pushHist gs) with
            Waiting := ((gs.Waiting.Enqueue gs.Blue.Goalkeeper).Dequeue).2.2
            Blue := ⟨((gs.Waiting.Enqueue gs.Blue.Goalkeeper).Dequeue).1, gs.Blue.Forward⟩ })) := by
  have hne2 : (streakUpdRed (pushHist gs)).Waiting.Len ≠ 0 := by
    simpa using hne
  unfold postGoalCore
  rw [ht, if_neg (by decide), if_pos rfl, if_neg (by simp [hs]), if_neg hne]
  dsimp only
  rw [rotateLoser_ok _ _ hne2]
  simp

/-- Shape of a successful blue goal (red rotates). -/
lemma postGoalCore_blue (gs : GameState) (rawTeam : String)
    (ht : toLowerGo (trimSpace rawTeam) = "blue") (hs : gs.Started = true)
    (hne : gs.Waiting.Len ≠ 0) :
    postGoalCore gs rawTeam =
      ({ streakUpdBlue (pushHist gs) with
          Waiting := ((gs.Waiting.Enqueue gs.Red.Goalkeeper).Dequeue).2.2
          Red := ⟨((gs.Waiting.Enqueue gs.Red.Goalkeeper).Dequeue).1, gs.Red.Forward⟩ },
        .ok (⟨gs.Red.Goalkeeper, gs.Red.Forward,
            ((gs.Waiting.Enqueue gs.Red.Goalkeeper).Dequeue).1⟩,
          checkCelebration { streakUpdBlue (pushHist gs) with
            Waiting := ((gs.Waiting.Enqueue gs.Red.Goalkeeper).Dequeue).2.2
            Red := ⟨((gs.Waiting.Enqueue gs.Red.Goalkeeper).Dequeue).1, gs.Red.Forward⟩ })) := by
  have hne2 : (streakUpdBlue (pushHist gs)).Waiting.Len ≠ 0 := by
    simpa using hne
  unfold postGoalCore
  rw [ht, if_neg (by decide), if_neg (by decide), if_neg (by simp [hs]), if_neg hne]
  dsimp only
  rw [rotateLoser_ok _ _ hne2]
  simp

/-- Undoing any state whose history is the original history plus one
snapshot of the original state returns to the original state on every
snapshot-covered field, popping exactly that entry. -/
lemma undo_after_push (gs gsp : GameState)
    (h : gsp.History = gs.History ++ [snapshotGame gs]) :
    (postUndoCore gsp).2 = .ok () ∧ coreView (postUndoCore gsp).1 = coreView gs := by
  have hlast : gsp.History.getLast? = some (snapshotGame gs) := by
    rw [h]; exact List.getLast?_concat _
  have hdrop : gsp.History.dropLast = gs.History := by
    rw [h]; exact List.dropLast_concat
  unfold postUndoCore
  rw [hlast]
  refine ⟨rfl, ?_⟩
  unfold coreView applySnapshot snapshotGame
  simp [hdrop]

lemma postUndo_streak (gs : GameState) :
    streakView (postUndoCore gs).1 = streakView gs := by
  unfold postUndoCore
  cases h : gs.History.getLast? with
  | none => rfl
  | some last => rfl

/-- C4: for every finite sequence of `Enqueue`/`Dequeue` calls starting
from any initial capacity (including 1), `Snapshot` equals the FIFO order
implied by the call sequence, its length is `Len`, and the next `Dequeue`
returns the head of that order: capacity growth neither reorders nor
drops elements. -/
theorem claim_C4_ringqueue_fifo (ops : List QOp) (cap : Nat) :
    (runQ ops (NewRingQueue cap)).Snapshot = modelQ ops [] ∧
      (runQ ops (NewRingQueue cap)).Len = (modelQ ops []).length ∧
      ((runQ ops (NewRingQueue cap)).Dequeue).1 = (modelQ ops []).headD "" := by
  have main : ∀ (ops : List QOp) (q : RingQueue) (l : List String), q.WF → q.Snapshot = l →
      (runQ ops q).WF ∧ (runQ ops q).Snapshot = modelQ ops l := by
    intro ops
    induction ops with
    | nil => intro q l hwf hsnap; exact ⟨hwf, hsnap⟩
    | cons op ops ih =>
      intro q l hwf hsnap
      cases op with
      | enq v =>
        obtain ⟨h1, h2⟩ := RingQueue.enqueue_spec q v hwf
        exact ih (q.Enqueue v) (l ++ [v]) h1 (by rw [h2, hsnap])
      | deq =>
        by_cases hz : q.size = 0
        · have hemp : q.Snapshot = [] := by
            unfold RingQueue.Snapshot; rw [hz]; rfl
          subst hsnap
          show (runQ ops (q.Dequeue).2.2).WF ∧
            (runQ ops (q.Dequeue).2.2).Snapshot = modelQ ops q.Snapshot.tail
          rw [RingQueue.dequeue_empty q hz]
          exact ih q _ hwf (by rw [hemp]; rfl)
        · obtain ⟨_, _, hwf', hsnap'⟩ := RingQueue.dequeue_spec q hwf hz
          exact ih _ l.tail hwf' (by rw [hsnap', hsnap])
  obtain ⟨hwf, hsnap⟩ := main ops (NewRingQueue cap) [] (WF_new cap) (Snapshot_new cap)
  refine ⟨hsnap, ?_, ?_⟩
  · rw [← hsnap]
    exact ((runQ ops (NewRingQueue cap)).length_Snapshot).symm
  · rw [← hsnap]
    exact RingQueue.dequeue_fst _ hwf

/-- C1: on a started game with a non-empty waiting queue, a successful
`ApplyGoal` benches the losing goalkeeper to the waiting-queue tail,
promotes the losing forward to goalkeeper, promotes the pre-call queue
head to forward, leaves the scoring team's slot untouched, and returns the
`RotationSummary` with exactly those values — for either scoring team. -/
theorem claim_C1_applyGoal_rotation (gs : GameState) (hwf : gs.Waiting.WF)
    (hs : gs.Started = true) (hne : gs.Waiting.Len ≠ 0) :
    ((postGoalCore gs "red").1.Blue =
        ⟨gs.Waiting.Snapshot.headD "", gs.Blue.Forward⟩ ∧
      (postGoalCore gs "red").1.Red = gs.Red ∧
      (postGoalCore gs "red").1.Waiting.Snapshot =
        gs.Waiting.Snapshot.tail ++ [gs.Blue.Goalkeeper] ∧
      (∃ c, (postGoalCore gs "red").2 =
        .ok (⟨gs.Blue.Goalkeeper, gs.Blue.Forward, gs.Waiting.Snapshot.headD ""⟩, c))) ∧
    ((postGoalCore gs "blue").1.Red =
        ⟨gs.Waiting.Snapshot.headD "", gs.Red.Forward⟩ ∧
      (postGoalCore gs "blue").1.Blue = gs.Blue ∧
      (postGoalCore gs "blue").1.Waiting.Snapshot =
        gs.Waiting.Snapshot.tail ++ [gs.Red.Goalkeeper] ∧
      (∃ c, (postGoalCore gs "blue").2 =
        .ok (⟨gs.Red.Goalkeeper, gs.Red.Forward, gs.Waiting.Snapshot.headD ""⟩, c))) := by
  have h1 := rotate_queue_spec gs.Waiting gs.Blue.Goalkeeper hwf hne
  have h2 := rotate_queue_spec gs.Waiting gs.Red.Goalkeeper hwf hne
  constructor
  · rw [postGoalCore_red gs "red" (by decide) hs hne, h1.1]
    exact ⟨rfl, by simp, h1.2.1, ⟨_, rfl⟩⟩
  · rw [postGoalCore_blue gs "blue" (by decide) hs hne, h2.1]
    exact ⟨rfl, by simp, h2.2.1, ⟨_, rfl⟩⟩

/-- Witness for C1 at the spec §8 scenario: red `[p1,p2]`, blue `[p3,p4]`,
waiting `[p5,p6,p7]`; `ApplyGoal("red")` yields blue `{forward p5,
goalkeeper p3}`, waiting `[p6,p7,p4]`, summary `(p4, p3, p5)`. -/
theorem claim_C1_witness :
    G0.Waiting.WF ∧ G0.Started = true ∧ G0.Waiting.Len ≠ 0 ∧
      ((postGoalCore G0 "red").1.Blue = ⟨"p5", "p3"⟩ ∧
        (postGoalCore G0 "red").1.Red = ⟨"p1", "p2"⟩ ∧
        (postGoalCore G0 "red").1.Waiting.Snapshot = ["p6", "p7", "p4"] ∧
        (∃ c, (postGoalCore G0 "red").2 = .ok (⟨"p4", "p3", "p5"⟩, c))) := by
  refine ⟨by decide, rfl, by decide, ?_⟩
  exact (claim_C1_applyGoal_rotation G0 (by decide) rfl (by decide)).1

/-- C2 is false on the code: a successful `ApplyGoal("red")` on the fresh
spec §8 game leaves the red score at 0, not 1 — `postGoal` in
`handlers.go` never increments the in-memory score counters (goal events
go to the persistence layer instead). -/
theorem claim_C2_counterexample :
    postStartNewGameCore ⟨"p1", "p2"⟩ ⟨"p3", "p4"⟩ ["p5", "p6", "p7"] = .ok G0 ∧
      (postGoalCore G0 "red").2 = .ok (⟨"p4", "p3", "p5"⟩, none) ∧
      (postGoalCore G0 "red").1.Score.Red = 0 ∧
      (postGoalCore G0 "red").1.Score.Red ≠ 1 :=
  ⟨rfl, rfl, rfl, by decide⟩

/-- C2 amended: every `ApplyGoal` call — successful or not — leaves both
in-memory score counters unchanged; in particular after one
`ApplyGoal("red")` on a fresh game the red score is still 0. -/
theorem claim_C2_score_unchanged (gs : GameState) (rawTeam : String) :
    (postGoalCore gs rawTeam).1.Score = gs.Score := by
  unfold postGoalCore
  dsimp only
  repeat' split
  all_goals simp

/-- C5: with a valid team token, `ApplyGoal` on a not-started game fails
with `notStarted`, and on a started game with an empty waiting queue fails
with `queueEmpty`; in both cases the returned state is the input state —
no history entry, score change, slot or queue mutation. -/
theorem claim_C5_goal_conflict_no_side_effect (gs : GameState) (rawTeam : String)
    (ht : toLowerGo (trimSpace rawTeam) = "red" ∨ toLowerGo (trimSpace rawTeam) = "blue") :
    (gs.Started = false → postGoalCore gs rawTeam = (gs, .error .notStarted)) ∧
      (gs.Started = true → gs.Waiting.Len = 0 →
        postGoalCore gs rawTeam = (gs, .error .queueEmpty)) := by
  unfold postGoalCore
  rcases ht with h | h <;> rw [h]
  · rw [if_neg (by decide), if_pos rfl]
    constructor
    · intro hns
      rw [if_pos hns]
    · intro hs hlen
      rw [if_neg (by simp [hs]), if_pos hlen]
  · rw [if_neg (by decide), if_neg (by decide)]
    constructor
    · intro hns
      rw [if_pos hns]
    · intro hs hlen
      rw [if_neg (by simp [hs]), if_pos hlen]

/-- Witness for C5 at `G5` (started game, empty waiting queue). -/
theorem claim_C5_witness :
    (toLowerGo (trimSpace "red") = "red" ∨ toLowerGo (trimSpace "red") = "blue") ∧
      ((G5.Started = false → postGoalCore G5 "red" = (G5, .error .notStarted)) ∧
        (G5.Started = true → G5.Waiting.Len = 0 →
          postGoalCore G5 "red" = (G5, .error .queueEmpty))) :=
  ⟨Or.inl (by decide), claim_C5_goal_conflict_no_side_effect G5 "red" (Or.inl (by decide))⟩

/-- C6: `RemovePlayer` for an absent id (`"zz"` on the §8 game) does fail
with `notFound`, but the handler pushes an undo snapshot before searching,
so the failed call leaves the history one entry longer — a side effect the
claim rules out.  The first-match part of the claim holds: with `p5` both
waiting and in the blue goalkeeper slot, only the waiting occurrence is
removed. -/
theorem claim_C6_remove_notfound_side_effect :
    (postRemovePlayerCore G0 "zz").2 = .error .notFound ∧
      (postRemovePlayerCore G0 "zz").1 = pushHist G0 ∧
      (postRemovePlayerCore G0 "zz").1.History = G0.History ++ [snapshotGame G0] ∧
      G0.History = [] ∧
      (postRemovePlayerCore G6b "p5").2 = .ok () ∧
      (postRemovePlayerCore G6b "p5").1.Waiting.Snapshot = ["p6", "p7"] ∧
      (postRemovePlayerCore G6b "p5").1.Blue = ⟨"p3", "p5"⟩ :=
  ⟨rfl, rfl, rfl, rfl, rfl, rfl, rfl⟩

/-- C8: `EnqueuePlayer` with a (trimmed, non-empty) id already present in
any of the four active slots or the waiting queue fails with `duplicateId`
and returns the state unchanged — no history entry pushed. -/
theorem claim_C8_duplicate_enqueue_rejected (gs : GameState) (rawId : String)
    (h1 : trimSpace rawId ≠ "")
    (h2 : trimSpace rawId = gs.Red.Forward ∨ trimSpace rawId = gs.Red.Goalkeeper ∨
      trimSpace rawId = gs.Blue.Forward ∨ trimSpace rawId = gs.Blue.Goalkeeper ∨
      trimSpace rawId ∈ gs.Waiting.Snapshot) :
    postQueueCore gs rawId = (gs, .error .duplicateId) := by
  have hex : playerExistsInGame gs (trimSpace rawId) = true := by
    unfold playerExistsInGame
    by_cases hslots : gs.Red.Forward = trimSpace rawId ∨ gs.Red.Goalkeeper = trimSpace rawId ∨
        gs.Blue.Forward = trimSpace rawId ∨ gs.Blue.Goalkeeper = trimSpace rawId
    · rw [if_pos hslots]
    · rw [if_neg hslots]
      rcases h2 with h | h | h | h | h
      · exact absurd (Or.inl h.symm) hslots
      · exact absurd (Or.inr (Or.inl h.symm)) hslots
      · exact absurd (Or.inr (Or.inr (Or.inl h.symm))) hslots
      · exact absurd (Or.inr (Or.inr (Or.inr h.symm))) hslots
      · rw [List.any_eq_true]
        exact ⟨trimSpace rawId, h, by simp⟩
  unfold postQueueCore
  rw [if_neg h1, if_pos hex]

/-- Witness for C8: enqueuing `" p3 "` into the §8 game (`p3` is the blue
forward) is rejected as a duplicate with no state change. -/
theorem claim_C8_witness :
    trimSpace " p3 " ≠ "" ∧
      (trimSpace " p3 " = G0.Red.Forward ∨ trimSpace " p3 " = G0.Red.Goalkeeper ∨
        trimSpace " p3 " = G0.Blue.Forward ∨ trimSpace " p3 " = G0.Blue.Goalkeeper ∨
        trimSpace " p3 " ∈ G0.Waiting.Snapshot) ∧
      postQueueCore G0 " p3 " = (G0, .error .duplicateId) :=
  ⟨by decide, by decide, claim_C8_duplicate_enqueue_rejected G0 " p3 " (by decide) (by decide)⟩

lemma postGoal_fail_notStarted (gs : GameState) (rawTeam : String)
    (ht : toLowerGo (trimSpace rawTeam) = "red" ∨ toLowerGo (trimSpace rawTeam) = "blue")
    (hns : gs.Started = false) :
    postGoalCore gs rawTeam = (gs, .error .notStarted) := by
  unfold postGoalCore
  rcases ht with h | h <;> rw [h]
  · rw [if_neg (by decide), if_pos rfl, if_pos hns]
  · rw [if_neg (by decide), if_neg (by decide), if_pos hns]

lemma postGoal_fail_empty (gs : GameState) (rawTeam : String)
    (ht : toLowerGo (trimSpace rawTeam) = "red" ∨ toLowerGo (trimSpace rawTeam) = "blue")
    (hs : gs.Started = true) (hlen : gs.Waiting.Len = 0) :
    postGoalCore gs rawTeam = (gs, .error .queueEmpty) := by
  unfold postGoalCore
  rcases ht with h | h <;> rw [h]
  · rw [if_neg (by decide), if_pos rfl, if_neg (by simp [hs]), if_pos hlen]
  · rw [if_neg (by decide), if_neg (by decide), if_neg (by simp [hs]), if_pos hlen]

lemma postGoal_ok_inv (gs : GameState) (rawTeam : String)
    (out : rotationSummary × Option celebrationResponse)
    (h : (postGoalCore gs rawTeam).2 = .ok out) :
    (toLowerGo (trimSpace rawTeam) = "red" ∨ toLowerGo (trimSpace rawTeam) = "blue") ∧
      gs.Started = true ∧ gs.Waiting.Len ≠ 0 := by
  have hval : toLowerGo (trimSpace rawTeam) = "red" ∨ toLowerGo (trimSpace rawTeam) = "blue" := by
    by_contra hc
    push_neg at hc
    unfold postGoalCore at h
    rw [if_pos hc] at h
    simp at h
  have hs : gs.Started = true := by
    by_contra hc
    have hns : gs.Started = false := by simpa using hc
    rw [postGoal_fail_notStarted gs rawTeam hval hns] at h
    simp at h
  have hlen : gs.Waiting.Len ≠ 0 := by
    intro hl
    rw [postGoal_fail_empty gs rawTeam hval hs hl] at h
    simp at h
  exact ⟨hval, hs, hlen⟩

lemma postGoal_ok_history (gs : GameState) (rawTeam : String)
    (out : rotationSummary × Option celebrationResponse)
    (h : (postGoalCore gs rawTeam).2 = .ok out) :
    (postGoalCore gs rawTeam).1.History = gs.History ++ [snapshotGame gs] := by
  obtain ⟨hval, hs, hlen⟩ := postGoal_ok_inv gs rawTeam out h
  rcases hval with hv | hv
  · rw [postGoalCore_red gs rawTeam hv hs hlen]
    simp
  · rw [postGoalCore_blue gs rawTeam hv hs hlen]
    simp

lemma postQueue_ok_shape (gs : GameState) (rawId : String)
    (h : (postQueueCore gs rawId).2 = .ok ()) :
    postQueueCore gs rawId =
      ({ pushHist gs with Waiting := gs.Waiting.Enqueue (trimSpace rawId) }, .ok ()) ∧
      trimSpace rawId ≠ "" ∧ playerExistsInGame gs (trimSpace rawId) = false := by
  by_cases h1 : trimSpace rawId = ""
  · exfalso
    unfold postQueueCore at h
    rw [if_pos h1] at h
    simp at h
  · by_cases h2 : playerExistsInGame gs (trimSpace rawId) = true
    · exfalso
      unfold postQueueCore at h
      rw [if_neg h1, if_pos h2] at h
      simp at h
    · refine ⟨?_, h1, by simpa using h2⟩
      unfold postQueueCore
      rw [if_neg h1, if_neg h2]

lemma postRemove_push (gs : GameState) (rawId : String) (hid : trimSpace rawId ≠ "") :
    (postRemovePlayerCore gs rawId).1.History = gs.History ++ [snapshotGame gs] ∧
      streakView (postRemovePlayerCore gs rawId).1 = streakView gs := by
  unfold postRemovePlayerCore
  rw [if_neg hid]
  dsimp only [pushHist]
  by_cases c0 : (gs.Waiting.RemoveValue (trimSpace rawId)).2 = true
  · simp [c0, streakView]
  · have c0' : (gs.Waiting.RemoveValue (trimSpace rawId)).2 = false := by
      simpa using c0
    by_cases c1 : gs.Red.Forward = trimSpace rawId
    · simp [c0', c1, streakView]
    · by_cases c2 : gs.Red.Goalkeeper = trimSpace rawId
      · simp [c0', c1, c2, streakView]
      · by_cases c3 : gs.Blue.Forward = trimSpace rawId
        · simp [c0', c1, c2, c3, streakView]
        · by_cases c4 : gs.Blue.Goalkeeper = trimSpace rawId
          · simp [c0', c1, c2, c3, c4, streakView]
          · simp [c0', c1, c2, c3, c4, streakView]

/-- C3 fails on the code: a successful goal followed by `Undo` does not
return the exact pre-goal `GameState` — the streak-tracking fields mutated
by the goal are not covered by the snapshot, so `StreakTeam` stays `"red"`
where it was `""` before. -/
theorem claim_C3_counterexample :
    (postGoalCore G0 "red").2 = .ok (⟨"p4", "p3", "p5"⟩, none) ∧
      (postUndoCore (postGoalCore G0 "red").1).2 = .ok () ∧
      (postUndoCore (postGoalCore G0 "red").1).1.StreakTeam = "red" ∧
      G0.StreakTeam = "" ∧
      (postUndoCore (postGoalCore G0 "red").1).1 ≠ G0 :=
  ⟨rfl, rfl, rfl, rfl, by decide⟩

/-- C3 amended: for any single successful mutating operation (goal,
queue-add, remove) followed immediately by `Undo`, all snapshot-covered
fields — `Red`, `Blue`, waiting-queue contents, `Score`, `Started`,
`History` — equal the pre-call state, and `Undo` pops exactly the last
history entry and pushes nothing; queue-add and remove also leave the
streak fields intact, but a goal's streak update is not reverted. -/
theorem claim_C3_undo_restores (gs : GameState) :
    (∀ rawTeam out, (postGoalCore gs rawTeam).2 = .ok out →
      (postUndoCore (postGoalCore gs rawTeam).1).2 = .ok () ∧
        coreView (postUndoCore (postGoalCore gs rawTeam).1).1 = coreView gs) ∧
      (∀ rawId, (postQueueCore gs rawId).2 = .ok () →
        (postUndoCore (postQueueCore gs rawId).1).2 = .ok () ∧
          coreView (postUndoCore (postQueueCore gs rawId).1).1 = coreView gs ∧
          streakView (postUndoCore (postQueueCore gs rawId).1).1 = streakView gs) ∧
      (∀ rawId, (postRemovePlayerCore gs rawId).2 = .ok () →
        (postUndoCore (postRemovePlayerCore gs rawId).1).2 = .ok () ∧
          coreView (postUndoCore (postRemovePlayerCore gs rawId).1).1 = coreView gs ∧
          streakView (postUndoCore (postRemovePlayerCore gs rawId).1).1 = streakView gs) := by
  refine ⟨?_, ?_, ?_⟩
  · intro rawTeam out h
    exact undo_after_push gs _ (postGoal_ok_history gs rawTeam out h)
  · intro rawId h
    obtain ⟨hshape, _, _⟩ := postQueue_ok_shape gs rawId h
    have hhist : (postQueueCore gs rawId).1.History = gs.History ++ [snapshotGame gs] := by
      rw [hshape]
      rfl
    obtain ⟨hu1, hu2⟩ := undo_after_push gs _ hhist
    refine ⟨hu1, hu2, ?_⟩
    rw [postUndo_streak, hshape]
    rfl
  · intro rawId h
    have hid : trimSpace rawId ≠ "" := by
      intro hemp
      unfold postRemovePlayerCore at h
      rw [if_pos hemp] at h
      simp at h
    obtain ⟨hhist, hstreak⟩ := postRemove_push gs rawId hid
    obtain ⟨hu1, hu2⟩ := undo_after_push gs _ hhist
    exact ⟨hu1, hu2, by rw [postUndo_streak, hstreak]⟩

/-- Witness for C3 (amended) at the §8 game: goal then undo restores all
snapshot-covered fields. -/
theorem claim_C3_witness :
    (postGoalCore G0 "red").2 = .ok (⟨"p4", "p3", "p5"⟩, none) ∧
      (postUndoCore (postGoalCore G0 "red").1).2 = .ok () ∧
      coreView (postUndoCore (postGoalCore G0 "red").1).1 = coreView G0 := by
  refine ⟨rfl, ?_, ?_⟩
  · exact ((claim_C3_undo_restores G0).1 "red" (⟨"p4", "p3", "p5"⟩, none) rfl).1
  · exact ((claim_C3_undo_restores G0).1 "red" (⟨"p4", "p3", "p5"⟩, none) rfl).2

lemma scorerOf_red (gs : GameState) : scorerOf gs "red" = gs.Red := by
  unfold scorerOf
  rw [if_pos rfl]

lemma scorerOf_blue (gs : GameState) : scorerOf gs "blue" = gs.Blue := by
  unfold scorerOf
  rw [if_neg (by decide)]

lemma loserOf_red (gs : GameState) : loserOf gs "red" = gs.Blue := by
  unfold loserOf
  rw [if_pos rfl]

lemma loserOf_blue (gs : GameState) : loserOf gs "blue" = gs.Red := by
  unfold loserOf
  rw [if_neg (by decide)]

lemma streakView_goalRed (gs : GameState) :
    streakView (streakUpdRed (pushHist gs)) =
      if streakResetCond gs "red" then
        ("red", gs.Red.Forward, gs.Red.Goalkeeper, gs.Blue.Forward, gs.Blue.Goalkeeper, false)
      else streakView gs := by
  unfold streakResetCond
  simp only [scorerOf_red]
  unfold streakUpdRed streakView pushHist
  dsimp only
  split <;> rfl

lemma streakView_goalBlue (gs : GameState) :
    streakView (streakUpdBlue (pushHist gs)) =
      if streakResetCond gs "blue" then
        ("blue", gs.Blue.Forward, gs.Blue.Goalkeeper, gs.Red.Forward, gs.Red.Goalkeeper, false)
      else streakView gs := by
  unfold streakResetCond
  simp only [scorerOf_blue]
  unfold streakUpdBlue streakView pushHist
  dsimp only
  split <;> rfl

/-- C9: the streak used for full-rotation detection is compared role-wise:
a goal resets the streak (re-recording team, pair, the pre-rotation
opponent baseline, and clearing the awarded flag) exactly when the scoring
team's current forward or goalkeeper differs field-for-field from the
tracked streak fields, and leaves all six streak fields untouched
otherwise; in particular the same two winners with swapped roles trigger a
reset with a freshly recorded baseline. -/
theorem claim_C9_streak_rolewise (gs : GameState) (rawTeam : String)
    (ht : toLowerGo (trimSpace rawTeam) = "red" ∨ toLowerGo (trimSpace rawTeam) = "blue")
    (hs : gs.Started = true) (hne : gs.Waiting.Len ≠ 0) :
    streakView (postGoalCore gs rawTeam).1 =
      (if streakResetCond gs (toLowerGo (trimSpace rawTeam)) then
        (toLowerGo (trimSpace rawTeam),
          (scorerOf gs (toLowerGo (trimSpace rawTeam))).Forward,
          (scorerOf gs (toLowerGo (trimSpace rawTeam))).Goalkeeper,
          (loserOf gs (toLowerGo (trimSpace rawTeam))).Forward,
          (loserOf gs (toLowerGo (trimSpace rawTeam))).Goalkeeper, false)
      else streakView gs) ∧
      (gs.StreakTeam = toLowerGo (trimSpace rawTeam) →
        gs.StreakForward = (scorerOf gs (toLowerGo (trimSpace rawTeam))).Goalkeeper →
        gs.StreakGoalkeeper = (scorerOf gs (toLowerGo (trimSpace rawTeam))).Forward →
        (scorerOf gs (toLowerGo (trimSpace rawTeam))).Forward ≠
          (scorerOf gs (toLowerGo (trimSpace rawTeam))).Goalkeeper →
        streakView (postGoalCore gs rawTeam).1 =
          (toLowerGo (trimSpace rawTeam),
            (scorerOf gs (toLowerGo (trimSpace rawTeam))).Forward,
            (scorerOf gs (toLowerGo (trimSpace rawTeam))).Goalkeeper,
            (loserOf gs (toLowerGo (trimSpace rawTeam))).Forward,
            (loserOf gs (toLowerGo (trimSpace rawTeam))).Goalkeeper, false)) := by
  have main : streakView (postGoalCore gs rawTeam).1 =
      if streakResetCond gs (toLowerGo (trimSpace rawTeam)) then
        (toLowerGo (trimSpace rawTeam),
          (scorerOf gs (toLowerGo (trimSpace rawTeam))).Forward,
          (scorerOf gs (toLowerGo (trimSpace rawTeam))).Goalkeeper,
          (loserOf gs (toLowerGo (trimSpace rawTeam))).Forward,
          (loserOf gs (toLowerGo (trimSpace rawTeam))).Goalkeeper, false)
      else streakView gs := by
    rcases ht with hv | hv <;> rw [hv]
    · rw [postGoalCore_red gs rawTeam hv hs hne]
      rw [scorerOf_red, loserOf_red]
      exact streakView_goalRed gs
    · rw [postGoalCore_blue gs rawTeam hv hs hne]
      rw [scorerOf_blue, loserOf_blue]
      exact streakView_goalBlue gs
  refine ⟨main, ?_⟩
  intro e1 e2 e3 e4
  rw [main, if_pos ?_]
  refine Or.inr (Or.inl ?_)
  intro heq
  exact e4 (heq.symm.trans e2)

/-- Witness for C9 at `GW9`: streak tracks `p2/p1`, the red slots are
`p1/p2` (same players, swapped roles), so the goal starts a fresh streak
with the baseline re-recorded from blue. -/
theorem claim_C9_witness :
    (toLowerGo (trimSpace "red") = "red" ∨ toLowerGo (trimSpace "red") = "blue") ∧
      GW9.Started = true ∧ GW9.Waiting.Len ≠ 0 ∧
      GW9.StreakTeam = toLowerGo (trimSpace "red") ∧
      GW9.StreakForward = (scorerOf GW9 (toLowerGo (trimSpace "red"))).Goalkeeper ∧
      GW9.StreakGoalkeeper = (scorerOf GW9 (toLowerGo (trimSpace "red"))).Forward ∧
      (scorerOf GW9 (toLowerGo (trimSpace "red"))).Forward ≠
        (scorerOf GW9 (toLowerGo (trimSpace "red"))).Goalkeeper ∧
      streakView (postGoalCore GW9 "red").1 = ("red", "p1", "p2", "p3", "p4", false) := by
  refine ⟨Or.inl (by decide), rfl, by decide, by decide, by decide, by decide, by decide, ?_⟩
  exact (claim_C9_streak_rolewise GW9 "red" (Or.inl (by decide)) rfl (by decide)).2
    (by decide) (by decide) (by decide) (by decide)

/-- C10: both `EnqueuePlayer` and `RemovePlayer` trim the submitted id
before any other processing — an id empty after trimming is rejected as a
validation error with no state change, two submissions with equal trimmed
forms behave identically, and a successfully enqueued id is stored in its
trimmed form at the queue tail. -/
theorem claim_C10_trim_normalization (gs : GameState) (hwf : gs.Waiting.WF)
    (raw raw' : String) (heq : trimSpace raw = trimSpace raw') :
    (trimSpace raw = "" →
      postQueueCore gs raw = (gs, .error .playerRequired) ∧
        postRemovePlayerCore gs raw = (gs, .error .playerRequired)) ∧
      postQueueCore gs raw = postQueueCore gs raw' ∧
      postRemovePlayerCore gs raw = postRemovePlayerCore gs raw' ∧
      (∀ x, postQueueCore gs raw = (x, .ok ()) →
        x.Waiting.Snapshot = gs.Waiting.Snapshot ++ [trimSpace raw]) := by
  refine ⟨?_, ?_, ?_, ?_⟩
  · intro hemp
    constructor
    · unfold postQueueCore
      rw [if_pos hemp]
    · unfold postRemovePlayerCore
      rw [if_pos hemp]
  · unfold postQueueCore
    rw [heq]
  · unfold postRemovePlayerCore
    rw [heq]
  · intro x hx
    have h2 : (postQueueCore gs raw).2 = .ok () := by rw [hx]
    obtain ⟨hshape, _, _⟩ := postQueue_ok_shape gs raw h2
    rw [hshape] at hx
    injection hx with hx1 hx2
    rw [← hx1]
    exact (RingQueue.enqueue_spec gs.Waiting (trimSpace raw) hwf).2

/-- Witness for C10 at the §8 game with `" p8 "` and `"p8  "`. -/
theorem claim_C10_witness :
    G0.Waiting.WF ∧ trimSpace " p8 " = trimSpace "p8  " ∧
      postQueueCore G0 " p8 " = postQueueCore G0 "p8  " ∧
      postRemovePlayerCore G0 " p8 " = postRemovePlayerCore G0 "p8  " ∧
      (∀ x, postQueueCore G0 " p8 " = (x, .ok ()) →
        x.Waiting.Snapshot = G0.Waiting.Snapshot ++ [trimSpace " p8 "]) := by
  have h := claim_C10_trim_normalization G0 (by decide) " p8 " "p8  " (by decide)
  exact ⟨by decide, by decide, h.2.1, h.2.2.1, h.2.2.2⟩

lemma samePair_empty (a1 a2 b1 b2 : String)
    (h : a1 = "" ∨ a2 = "" ∨ b1 = "" ∨ b2 = "") : samePair a1 a2 b1 b2 = false := by
  unfold samePair
  rw [if_pos h]

lemma samePair_eq_spec (a1 a2 b1 b2 : String) :
    samePair a1 a2 b1 b2 =
      (specUnorderedPairEq a1 a2 b1 b2 && !(a1 == "") && !(a2 == "") &&
        !(b1 == "") && !(b2 == "")) := by
  unfold samePair specUnorderedPairEq
  split
  · next h =>
    rcases h with h | h | h | h <;> simp [h]
  · next h =>
    push_neg at h
    obtain ⟨h1, h2, h3, h4⟩ := h
    have e1 : (a1 == "") = false := beq_eq_false_iff_ne.2 h1
    have e2 : (a2 == "") = false := beq_eq_false_iff_ne.2 h2
    have e3 : (b1 == "") = false := beq_eq_false_iff_ne.2 h3
    have e4 : (b2 == "") = false := beq_eq_false_iff_ne.2 h4
    simp [e1, e2, e3, e4]

lemma checkCelebration_isSome (gs : GameState) :
    (checkCelebration gs).isSome =
      samePair gs.StreakOppStartF gs.StreakOppStartG
        (if gs.StreakTeam = "red" then gs.Blue else gs.Red).Forward
        (if gs.StreakTeam = "red" then gs.Blue else gs.Red).Goalkeeper := by
  unfold checkCelebration
  dsimp only
  by_cases hg : gs.StreakOppStartF ≠ "" ∧ gs.StreakOppStartG ≠ ""
  · rw [if_pos hg]
    by_cases hsp : samePair gs.StreakOppStartF gs.StreakOppStartG
        (if gs.StreakTeam = "red" then gs.Blue else gs.Red).Forward
        (if gs.StreakTeam = "red" then gs.Blue else gs.Red).Goalkeeper = true
    · rw [if_pos hsp, hsp]
      rfl
    · rw [if_neg hsp]
      rw [Bool.not_eq_true] at hsp
      rw [hsp]
      rfl
  · rw [if_neg hg]
    have hor : gs.StreakOppStartF = "" ∨ gs.StreakOppStartG = "" := by tauto
    rw [samePair_empty _ _ _ _ (by tauto)]
    rfl

lemma checkCelebration_some (gs : GameState) (e : celebrationResponse)
    (h : checkCelebration gs = some e) :
    e.Team = gs.StreakTeam ∧ e.kind = "full_rotation" := by
  unfold checkCelebration at h
  dsimp only at h
  by_cases hg : gs.StreakOppStartF ≠ "" ∧ gs.StreakOppStartG ≠ ""
  · rw [if_pos hg] at h
    by_cases hsp : samePair gs.StreakOppStartF gs.StreakOppStartG
        (if gs.StreakTeam = "red" then gs.Blue else gs.Red).Forward
        (if gs.StreakTeam = "red" then gs.Blue else gs.Red).Goalkeeper = true
    · rw [if_pos hsp] at h
      injection h with h'
      subst h'
      exact ⟨rfl, rfl⟩
    · rw [if_neg hsp] at h
      exact absurd h (by simp)
  · rw [if_neg hg] at h
    exact absurd h (by simp)

lemma baseline_red (gs : GameState) :
    ((streakUpdRed (pushHist gs)).StreakOppStartF,
      (streakUpdRed (pushHist gs)).StreakOppStartG) = baselineAfter gs "red" := by
  unfold baselineAfter streakResetCond
  simp only [scorerOf_red, loserOf_red]
  unfold streakUpdRed pushHist
  dsimp only
  split <;> rfl

lemma baseline_blue (gs : GameState) :
    ((streakUpdBlue (pushHist gs)).StreakOppStartF,
      (streakUpdBlue (pushHist gs)).StreakOppStartG) = baselineAfter gs "blue" := by
  unfold baselineAfter streakResetCond
  simp only [scorerOf_blue, loserOf_blue]
  unfold streakUpdBlue pushHist
  dsimp only
  split <;> rfl

/-- C7 is false as stated: reachable states with an empty slot make the
guard in `samePair` refuse a match that holds as plain unordered-pair
equality.  From red `[p1,p2]`, blue `[p3,p4]`, waiting `[p5]`: remove `p4`
(blue goalkeeper becomes `""`), then three red goals.  The streak baseline
recorded at the first goal is `(p3, "")`; after the third rotation the
blue pair is again `(p3, "")` — equal to the baseline as an unordered
pair — yet no `FullRotationEvent` is emitted (`samePair` rejects the empty
goalkeeper). -/
theorem claim_C7_counterexample :
    (postRemovePlayerCore B0 "p4").2 = .ok () ∧
      (postGoalCore B1 "red").2 = .ok (⟨"", "p3", "p5"⟩, none) ∧
      (postGoalCore B2 "red").2 = .ok (⟨"p3", "p5", ""⟩, none) ∧
      (postGoalCore B3 "red").2 = .ok (⟨"p5", "", "p3"⟩, none) ∧
      B4.StreakOppStartF = "p3" ∧ B4.StreakOppStartG = "" ∧
      B4.Blue = ⟨"p3", ""⟩ ∧
      specUnorderedPairEq B4.StreakOppStartF B4.StreakOppStartG
        B4.Blue.Forward B4.Blue.Goalkeeper = true :=
  ⟨rfl, rfl, rfl, rfl, rfl, rfl, rfl, rfl⟩

/-- C7 amended: on a successful `ApplyGoal`, a `FullRotationEvent` is
emitted if and only if the post-rotation losing pair matches the streak's
opponent baseline as an unordered pair of four NON-EMPTY identifiers; the
baseline is the pre-rotation losing pair when the streak (team or
role-wise pair) changed on this goal and the carried-over baseline
otherwise, and it is not cleared on a match; an emitted event names the
scoring team. -/
theorem claim_C7_full_rotation_iff (gs : GameState) (rawTeam : String)
    (ht : toLowerGo (trimSpace rawTeam) = "red" ∨ toLowerGo (trimSpace rawTeam) = "blue")
    (hs : gs.Started = true) (hne : gs.Waiting.Len ≠ 0) :
    ∀ s c, (postGoalCore gs rawTeam).2 = .ok (s, c) →
      ∃ gsp, (postGoalCore gs rawTeam).1 = gsp ∧
        (gsp.StreakOppStartF, gsp.StreakOppStartG) =
          baselineAfter gs (toLowerGo (trimSpace rawTeam)) ∧
        gsp.StreakTeam = toLowerGo (trimSpace rawTeam) ∧
        c.isSome = samePair gsp.StreakOppStartF gsp.StreakOppStartG
          (loserOf gsp (toLowerGo (trimSpace rawTeam))).Forward
          (loserOf gsp (toLowerGo (trimSpace rawTeam))).Goalkeeper ∧
        samePair gsp.StreakOppStartF gsp.StreakOppStartG
            (loserOf gsp (toLowerGo (trimSpace rawTeam))).Forward
            (loserOf gsp (toLowerGo (trimSpace rawTeam))).Goalkeeper =
          (specUnorderedPairEq gsp.StreakOppStartF gsp.StreakOppStartG
              (loserOf gsp (toLowerGo (trimSpace rawTeam))).Forward
              (loserOf gsp (toLowerGo (trimSpace rawTeam))).Goalkeeper &&
            !(gsp.StreakOppStartF == "") && !(gsp.StreakOppStartG == "") &&
            !((loserOf gsp (toLowerGo (trimSpace rawTeam))).Forward == "") &&
            !((loserOf gsp (toLowerGo (trimSpace rawTeam))).Goalkeeper == "")) ∧
        (∀ e, c = some e → e.Team = toLowerGo (trimSpace rawTeam) ∧
          e.kind = "full_rotation") := by
  intro s c h
  rcases ht with hv | hv
  · rw [postGoalCore_red gs rawTeam hv hs hne] at h
    dsimp only at h
    injection h with h'
    injection h' with hA hB
    subst hB
    rw [hv, postGoalCore_red gs rawTeam hv hs hne]
    dsimp only
    refine ⟨_, rfl, baseline_red gs, streakUpdRed_team (pushHist gs), ?_,
      samePair_eq_spec _ _ _ _, ?_⟩
    · rw [loserOf_red, checkCelebration_isSome,
        if_pos (show (({ streakUpdRed (pushHist gs) with
          Waiting := ((gs.Waiting.Enqueue gs.Blue.Goalkeeper).Dequeue).2.2
          Blue := ⟨((gs.Waiting.Enqueue gs.Blue.Goalkeeper).Dequeue).1,
            gs.Blue.Forward⟩ } : GameState).StreakTeam = "red")
          from streakUpdRed_team (pushHist gs))]
    · intro e he
      have hsome := checkCelebration_some _ e he
      exact ⟨hsome.1.trans (streakUpdRed_team (pushHist gs)), hsome.2⟩
  · rw [postGoalCore_blue gs rawTeam hv hs hne] at h
    dsimp only at h
    injection h with h'
    injection h' with hA hB
    subst hB
    rw [hv, postGoalCore_blue gs rawTeam hv hs hne]
    dsimp only
    refine ⟨_, rfl, baseline_blue gs, streakUpdBlue_team (pushHist gs), ?_,
      samePair_eq_spec _ _ _ _, ?_⟩
    · rw [loserOf_blue, checkCelebration_isSome,
        if_neg (show ¬ (({ streakUpdBlue (pushHist gs) with
          Waiting := ((gs.Waiting.Enqueue gs.Red.Goalkeeper).Dequeue).2.2
          Red := ⟨((gs.Waiting.Enqueue gs.Red.Goalkeeper).Dequeue).1,
            gs.Red.Forward⟩ } : GameState).StreakTeam = "red")
          from by rw [streakUpdBlue_team (pushHist gs)]; decide)]
    · intro e he
      have hsome := checkCelebration_some _ e he
      exact ⟨hsome.1.trans (streakUpdBlue_team (pushHist gs)), hsome.2⟩

/-- Witness for C7 at `W7`: the third goal of a red streak rotates blue
back to the recorded baseline pair `(p3,p4)` and the event fires. -/
theorem claim_C7_witness :
    (toLowerGo (trimSpace "red") = "red" ∨ toLowerGo (trimSpace "red") = "blue") ∧
      W7.Started = true ∧ W7.Waiting.Len ≠ 0 ∧
      (postGoalCore W7 "red").2 =
        .ok (⟨"p5", "p4", "p3"⟩, some ⟨"full_rotation", "red", ["p1", "p2"]⟩) ∧
      ((postGoalCore W7 "red").1.StreakOppStartF,
        (postGoalCore W7 "red").1.StreakOppStartG) = baselineAfter W7 "red" ∧
      (some (⟨"full_rotation", "red", ["p1", "p2"]⟩ : celebrationResponse)).isSome =
        samePair (postGoalCore W7 "red").1.StreakOppStartF
          (postGoalCore W7 "red").1.StreakOppStartG
          (loserOf (postGoalCore W7 "red").1 "red").Forward
          (loserOf (postGoalCore W7 "red").1 "red").Goalkeeper := by
  obtain ⟨gsp, hgsp, hbase, hteam, hsome, hspec, hnames⟩ :=
    claim_C7_full_rotation_iff W7 "red" (Or.inl (by decide)) rfl (by decide)
      ⟨"p5", "p4", "p3"⟩ (some ⟨"full_rotation", "red", ["p1", "p2"]⟩) rfl
  refine ⟨Or.inl (by decide), rfl, by decide, rfl, ?_, ?_⟩
  · rw [hgsp]
    exact hbase
  · rw [hgsp]
    exact hsome
